import Mathlib

/-!
Verification of the ConPort schema repository: the seven-table relational
schema declared twice (in the Alembic migration environment `alembic/env.py`
and in the bootstrap script `conport_schema.py`), together with the
bootstrap's create-all semantics and the row-level insert/update semantics
induced by the declared nullability, default and onupdate rules.
-/

/-- Column types used by the schema: SQLAlchemy `Integer`, `String(n)`,
`Text`, `DateTime` and `JSON`. -/
inductive ColType where
  | Integer : ColType
  | StringN : Nat → ColType
  | Text : ColType
  | DateTime : ColType
  | JSON : ColType
  deriving DecidableEq, Repr

/-- A default / onupdate rule attached to a column: none, a constant
integer, a constant string, or the engine-evaluated `func.now()`. -/
inductive DefaultRule where
  | noRule : DefaultRule
  | intConst : Int → DefaultRule
  | strConst : String → DefaultRule
  | now : DefaultRule
  deriving DecidableEq, Repr

/-- A column descriptor: the arguments of a SQLAlchemy `Column(...)` call.
Columns the source does not mark get SQLAlchemy's defaults: nullable,
no primary key, no default, no onupdate, no foreign key, not unique
(a primary-key column is implicitly non-nullable). -/
structure Column where
  name : String
  type : ColType
  primaryKey : Bool := false
  nullable : Bool := true
  colDefault : DefaultRule := DefaultRule.noRule
  onupdate : DefaultRule := DefaultRule.noRule
  foreignKey : Option String := none
  unique : Bool := false
  deriving DecidableEq, Repr

/-- A table descriptor: the arguments of a SQLAlchemy `Table(...)` call.
`extraConstraints` records table-level constraint objects passed to the
call; every `Table(...)` call in this repository passes only `Column`
objects, so it is empty throughout. -/
structure STable where
  name : String
  columns : List Column
  extraConstraints : List String := []
  deriving DecidableEq, Repr

/-- A stored cell value. JSON documents are opaque to the schema layer and
are carried as their serialized text; DateTime values produced by the
engine's `now()` are carried as an abstract clock tick. -/
inductive Value where
  | null : Value
  | intV : Int → Value
  | strV : String → Value
  | jsonV : String → Value
  | timeV : Nat → Value
  deriving DecidableEq, Repr

/-- Whether a value is the SQL NULL. -/
def Value.isNull : Value → Bool
  | Value.null => true
  | _ => false

/-- A SQLAlchemy engine, identified by its connection URL. -/
structure Engine where
  url : String
  deriving DecidableEq, Repr

/-- Whether a database (a list of existing tables) already has a table of
the given name. -/
def hasTable (db : List STable) (nm : String) : Bool :=
  db.any (fun u => u.name == nm)

/-- `MetaData.create_all`: create each table of the metadata that does not
already exist in the target database (SQLAlchemy's default
`checkfirst=True` semantics); tables already present are left untouched. -/
def createAll (md : List STable) (db : List STable) : List STable :=
  db ++ md.filter (fun t => !(hasTable db t.name))

namespace ConportSchema

/-- Product Context table of `conport_schema.py`. -/
def product_context : STable :=
  { name := "product_context"
    columns :=
      [ { name := "id", type := ColType.Integer, primaryKey := true, nullable := false }
      , { name := "workspace_id", type := ColType.StringN 500, nullable := false }
      , { name := "content", type := ColType.JSON }
      , { name := "version", type := ColType.Integer, colDefault := DefaultRule.intConst 1 }
      , { name := "created_at", type := ColType.DateTime, colDefault := DefaultRule.now }
      , { name := "updated_at", type := ColType.DateTime, colDefault := DefaultRule.now,
          onupdate := DefaultRule.now } ] }

/-- Active Context table of `conport_schema.py`. -/
def active_context : STable :=
  { name := "active_context"
    columns :=
      [ { name := "id", type := ColType.Integer, primaryKey := true, nullable := false }
      , { name := "workspace_id", type := ColType.StringN 500, nullable := false }
      , { name := "content", type := ColType.JSON }
      , { name := "version", type := ColType.Integer, colDefault := DefaultRule.intConst 1 }
      , { name := "created_at", type := ColType.DateTime, colDefault := DefaultRule.now }
      , { name := "updated_at", type := ColType.DateTime, colDefault := DefaultRule.now,
          onupdate := DefaultRule.now } ] }

/-- Decisions table of `conport_schema.py`. -/
def decisions : STable :=
  { name := "decisions"
    columns :=
      [ { name := "id", type := ColType.Integer, primaryKey := true, nullable := false }
      , { name := "workspace_id", type := ColType.StringN 500, nullable := false }
      , { name := "summary", type := ColType.Text, nullable := false }
      , { name := "rationale", type := ColType.Text }
      , { name := "implementation_details", type := ColType.Text }
      , { name := "tags", type := ColType.JSON }
      , { name := "created_at", type := ColType.DateTime, colDefault := DefaultRule.now }
      , { name := "updated_at", type := ColType.DateTime, colDefault := DefaultRule.now,
          onupdate := DefaultRule.now } ] }

/-- Progress table of `conport_schema.py`. -/
def progress : STable :=
  { name := "progress"
    columns :=
      [ { name := "id", type := ColType.Integer, primaryKey := true, nullable := false }
      , { name := "workspace_id", type := ColType.StringN 500, nullable := false }
      , { name := "status", type := ColType.StringN 100, nullable := false }
      , { name := "description", type := ColType.Text, nullable := false }
      , { name := "parent_id", type := ColType.Integer }
      , { name := "linked_item_type", type := ColType.StringN 100 }
      , { name := "linked_item_id", type := ColType.StringN 500 }
      , { name := "link_relationship_type", type := ColType.StringN 100,
          colDefault := DefaultRule.strConst "relates_to_progress" }
      , { name := "created_at", type := ColType.DateTime, colDefault := DefaultRule.now }
      , { name := "updated_at", type := ColType.DateTime, colDefault := DefaultRule.now,
          onupdate := DefaultRule.now } ] }

/-- System Patterns table of `conport_schema.py`. -/
def system_patterns : STable :=
  { name := "system_patterns"
    columns :=
      [ { name := "id", type := ColType.Integer, primaryKey := true, nullable := false }
      , { name := "workspace_id", type := ColType.StringN 500, nullable := false }
      , { name := "name", type := ColType.StringN 500, nullable := false }
      , { name := "description", type := ColType.Text }
      , { name := "tags", type := ColType.JSON }
      , { name := "created_at", type := ColType.DateTime, colDefault := DefaultRule.now }
      , { name := "updated_at", type := ColType.DateTime, colDefault := DefaultRule.now,
          onupdate := DefaultRule.now } ] }

/-- Custom Data table of `conport_schema.py`. -/
def custom_data : STable :=
  { name := "custom_data"
    columns :=
      [ { name := "id", type := ColType.Integer, primaryKey := true, nullable := false }
      , { name := "workspace_id", type := ColType.StringN 500, nullable := false }
      , { name := "category", type := ColType.StringN 200, nullable := false }
      , { name := "key", type := ColType.StringN 500, nullable := false }
      , { name := "value", type := ColType.JSON, nullable := false }
      , { name := "created_at", type := ColType.DateTime, colDefault := DefaultRule.now }
      , { name := "updated_at", type := ColType.DateTime, colDefault := DefaultRule.now,
          onupdate := DefaultRule.now } ] }

/-- Links table of `conport_schema.py`. -/
def links : STable :=
  { name := "links"
    columns :=
      [ { name := "id", type := ColType.Integer, primaryKey := true, nullable := false }
      , { name := "workspace_id", type := ColType.StringN 500, nullable := false }
      , { name := "source_item_type", type := ColType.StringN 100, nullable := false }
      , { name := "source_item_id", type := ColType.StringN 500, nullable := false }
      , { name := "target_item_type", type := ColType.StringN 100, nullable := false }
      , { name := "target_item_id", type := ColType.StringN 500, nullable := false }
      , { name := "relationship_type", type := ColType.StringN 200, nullable := false }
      , { name := "description", type := ColType.Text }
      , { name := "created_at", type := ColType.DateTime, colDefault := DefaultRule.now } ] }

/-- The `MetaData` object of `conport_schema.py` after the seven `Table`
calls have registered themselves, in declaration order. -/
def conport_metadata : List STable :=
  [product_context, active_context, decisions, progress, system_patterns,
   custom_data, links]

/-- `create_conport_tables()`: builds the engine for the fixed default path
`./conport.db`, declares the seven tables, runs `metadata.create_all`
against the target database, prints the confirmation message and returns
the engine. The target database state is made explicit; the result is the
new database state, the printed line, and the returned engine. -/
def create_conport_tables (db : List STable) : List STable × String × Engine :=
  let db_path := "./conport.db"
  let engine : Engine := { url := "sqlite:///" ++ db_path }
  (createAll conport_metadata db,
   "ConPort database created successfully at " ++ db_path,
   engine)

end ConportSchema

namespace AlembicEnv

/-- `product_context` table as declared in `alembic/env.py`. -/
def product_context : STable :=
  { name := "product_context"
    columns :=
      [ { name := "id", type := ColType.Integer, primaryKey := true, nullable := false }
      , { name := "workspace_id", type := ColType.StringN 500, nullable := false }
      , { name := "content", type := ColType.JSON }
      , { name := "version", type := ColType.Integer, colDefault := DefaultRule.intConst 1 }
      , { name := "created_at", type := ColType.DateTime, colDefault := DefaultRule.now }
      , { name := "updated_at", type := ColType.DateTime, colDefault := DefaultRule.now,
          onupdate := DefaultRule.now } ] }

/-- `active_context` table as declared in `alembic/env.py`. -/
def active_context : STable :=
  { name := "active_context"
    columns :=
      [ { name := "id", type := ColType.Integer, primaryKey := true, nullable := false }
      , { name := "workspace_id", type := ColType.StringN 500, nullable := false }
      , { name := "content", type := ColType.JSON }
      , { name := "version", type := ColType.Integer, colDefault := DefaultRule.intConst 1 }
      , { name := "created_at", type := ColType.DateTime, colDefault := DefaultRule.now }
      , { name := "updated_at", type := ColType.DateTime, colDefault := DefaultRule.now,
          onupdate := DefaultRule.now } ] }

/-- `decisions` table as declared in `alembic/env.py`. -/
def decisions : STable :=
  { name := "decisions"
    columns :=
      [ { name := "id", type := ColType.Integer, primaryKey := true, nullable := false }
      , { name := "workspace_id", type := ColType.StringN 500, nullable := false }
      , { name := "summary", type := ColType.Text, nullable := false }
      , { name := "rationale", type := ColType.Text }
      , { name := "implementation_details", type := ColType.Text }
      , { name := "tags", type := ColType.JSON }
      , { name := "created_at", type := ColType.DateTime, colDefault := DefaultRule.now }
      , { name := "updated_at", type := ColType.DateTime, colDefault := DefaultRule.now,
          onupdate := DefaultRule.now } ] }

/-- `progress` table as declared in `alembic/env.py`. -/
def progress : STable :=
  { name := "progress"
    columns :=
      [ { name := "id", type := ColType.Integer, primaryKey := true, nullable := false }
      , { name := "workspace_id", type := ColType.StringN 500, nullable := false }
      , { name := "status", type := ColType.StringN 100, nullable := false }
      , { name := "description", type := ColType.Text, nullable := false }
      , { name := "parent_id", type := ColType.Integer }
      , { name := "linked_item_type", type := ColType.StringN 100 }
      , { name := "linked_item_id", type := ColType.StringN 500 }
      , { name := "link_relationship_type", type := ColType.StringN 100,
          colDefault := DefaultRule.strConst "relates_to_progress" }
      , { name := "created_at", type := ColType.DateTime, colDefault := DefaultRule.now }
      , { name := "updated_at", type := ColType.DateTime, colDefault := DefaultRule.now,
          onupdate := DefaultRule.now } ] }

/-- `system_patterns` table as declared in `alembic/env.py`. -/
def system_patterns : STable :=
  { name := "system_patterns"
    columns :=
      [ { name := "id", type := ColType.Integer, primaryKey := true, nullable := false }
      , { name := "workspace_id", type := ColType.StringN 500, nullable := false }
      , { name := "name", type := ColType.StringN 500, nullable := false }
      , { name := "description", type := ColType.Text }
      , { name := "tags", type := ColType.JSON }
      , { name := "created_at", type := ColType.DateTime, colDefault := DefaultRule.now }
      , { name := "updated_at", type := ColType.DateTime, colDefault := DefaultRule.now,
          onupdate := DefaultRule.now } ] }

/-- `custom_data` table as declared in `alembic/env.py`. -/
def custom_data : STable :=
  { name := "custom_data"
    columns :=
      [ { name := "id", type := ColType.Integer, primaryKey := true, nullable := false }
      , { name := "workspace_id", type := ColType.StringN 500, nullable := false }
      , { name := "category", type := ColType.StringN 200, nullable := false }
      , { name := "key", type := ColType.StringN 500, nullable := false }
      , { name := "value", type := ColType.JSON, nullable := false }
      , { name := "created_at", type := ColType.DateTime, colDefault := DefaultRule.now }
      , { name := "updated_at", type := ColType.DateTime, colDefault := DefaultRule.now,
          onupdate := DefaultRule.now } ] }

/-- `links` table as declared in `alembic/env.py`. -/
def links : STable :=
  { name := "links"
    columns :=
      [ { name := "id", type := ColType.Integer, primaryKey := true, nullable := false }
      , { name := "workspace_id", type := ColType.StringN 500, nullable := false }
      , { name := "source_item_type", type := ColType.StringN 100, nullable := false }
      , { name := "source_item_id", type := ColType.StringN 500, nullable := false }
      , { name := "target_item_type", type := ColType.StringN 100, nullable := false }
      , { name := "target_item_id", type := ColType.StringN 500, nullable := false }
      , { name := "relationship_type", type := ColType.StringN 200, nullable := false }
      , { name := "description", type := ColType.Text }
      , { name := "created_at", type := ColType.DateTime, colDefault := DefaultRule.now } ] }

/-- The module-level `metadata` object of `alembic/env.py` after the seven
`Table` calls have registered themselves, in declaration order. -/
def metadata : List STable :=
  [product_context, active_context, decisions, progress, system_patterns,
   custom_data, links]

/-- `target_metadata = metadata` in `alembic/env.py`. -/
def target_metadata : List STable := metadata

end AlembicEnv

/-- The value a column takes when the insert statement does not supply one:
an integer primary key is generated by the engine (the next rowid), a
declared default is applied, and otherwise the column is NULL. -/
def applyDefault (c : Column) (nextId : Int) (now : Nat) : Value :=
  if c.primaryKey && c.type == ColType.Integer then Value.intV nextId
  else
    match c.colDefault with
    | DefaultRule.noRule => Value.null
    | DefaultRule.intConst n => Value.intV n
    | DefaultRule.strConst s => Value.strV s
    | DefaultRule.now => Value.timeV now

/-- The value stored in column `c` by an insert supplying the assignments
`vals`: the supplied value if present, otherwise the column's default. -/
def storedValue (c : Column) (vals : List (String × Value)) (nextId : Int) (now : Nat) : Value :=
  match vals.lookup c.name with
  | some v => v
  | none => applyDefault c nextId now

/-- Insert a row into table `t`: every column receives its supplied value or
its default; the insert fails with a constraint violation (returns `none`)
exactly when some non-nullable column would store NULL. `nextId` is the
engine-generated value for the integer primary key and `now` the engine
clock at insert time. -/
def insertRow (t : STable) (vals : List (String × Value)) (nextId : Int) (now : Nat) :
    Option (List (String × Value)) :=
  if t.columns.all (fun c => c.nullable || !(storedValue c vals nextId now).isNull) then
    some (t.columns.map (fun c => (c.name, storedValue c vals nextId now)))
  else
    none

/-- Update a stored row of table `t` with the assignments `sets`: a column
named in `sets` takes the assigned value; a column with an `onupdate`
rule of `func.now()` is refreshed to the current engine clock; every other
column keeps its stored value. -/
def updateRow (t : STable) (row : List (String × Value)) (sets : List (String × Value))
    (now : Nat) : List (String × Value) :=
  row.map (fun p =>
    match sets.lookup p.1 with
    | some v => (p.1, v)
    | none =>
      match t.columns.find? (fun c => c.name == p.1) with
      | some c => if c.onupdate == DefaultRule.now then (p.1, Value.timeV now) else p
      | none => p)

/-- Modelled from the spec: the column-name sets enumerated by the data
model of section 3 — per table, the key attributes listed there together
with the three shared conventions (integer primary key `id`, required
`workspace_id`, and the timestamp pair `created_at` / `updated_at` stated
to be present on all tables). -/
def specDataModelColumns : List (String × List String) :=
  [ ("product_context",
     ["id", "workspace_id", "content", "version", "created_at", "updated_at"])
  , ("active_context",
     ["id", "workspace_id", "content", "version", "created_at", "updated_at"])
  , ("decisions",
     ["id", "workspace_id", "summary", "rationale", "implementation_details",
      "tags", "created_at", "updated_at"])
  , ("progress",
     ["id", "workspace_id", "status", "description", "parent_id",
      "linked_item_type", "linked_item_id", "link_relationship_type",
      "created_at", "updated_at"])
  , ("system_patterns",
     ["id", "workspace_id", "name", "description", "tags", "created_at",
      "updated_at"])
  , ("custom_data",
     ["id", "workspace_id", "category", "key", "value", "created_at",
      "updated_at"])
  , ("links",
     ["id", "workspace_id", "source_item_type", "source_item_id",
      "target_item_type", "target_item_id", "relationship_type",
      "description", "created_at", "updated_at"]) ]

/-- Modelled from the spec: the storage layer's handling of a value for a
length-bounded `String(n)` column, which lives in the external storage
engine and is absent from src/ — per the spec, a value exceeding the
declared maximum length must be rejected by the storage layer, not
silently truncated, and a value within the bound is stored as given. -/
def storeBoundedString (n : Nat) (s : String) : Option String :=
  if s.length ≤ n then some s else none

/-- A table of the metadata is present in the database after `createAll`. -/
theorem hasTable_createAll (md db : List STable) (t : STable) (ht : t ∈ md) :
    hasTable (createAll md db) t.name = true := by
  unfold createAll hasTable
  rw [List.any_append]
  by_cases h : (db.any fun u => u.name == t.name) = true
  · rw [h, Bool.true_or]
  · have hany : ((md.filter fun x => !(db.any fun u => u.name == x.name)).any
        fun u => u.name == t.name) = true := by
      rw [List.any_eq_true]
      refine ⟨t, ?_, by simp⟩
      rw [List.mem_filter]
      exact ⟨ht, by simp [h]⟩
    rw [hany, Bool.or_true]

/-- `createAll` is idempotent: a second run against the database produced by
the first one creates nothing. -/
theorem createAll_createAll (md db : List STable) :
    createAll md (createAll md db) = createAll md db := by
  have h : (md.filter fun t => !(hasTable (createAll md db) t.name)) = [] := by
    rw [List.filter_eq_nil_iff]
    intro t ht
    rw [hasTable_createAll md db t ht]
    simp
  calc createAll md (createAll md db)
      = createAll md db ++ (md.filter fun t => !(hasTable (createAll md db) t.name)) := rfl
    _ = createAll md db ++ [] := by rw [h]
    _ = createAll md db := List.append_nil _

/-- Looking a name up in a row built by mapping each column to a value keyed
by its column name finds the value of the first column of that name. -/
theorem lookup_map_columns (cols : List Column) (f : Column → Value) (nm : String) :
    List.lookup nm (cols.map (fun c => (c.name, f c))) =
      (cols.find? (fun c => nm == c.name)).map f := by
  induction cols with
  | nil => rfl
  | cons c cs ih =>
      simp only [List.map_cons, List.lookup, List.find?]
      cases h : nm == c.name
      · simp only [h, ih]
      · simp only [h]
        rfl

/-- A map over a row that preserves every key and fixes every entry keyed
`nm` does not change what a lookup of `nm` returns. -/
theorem lookup_map_keys (nm : String) (g : String × Value → String × Value)
    (hg : ∀ p, (g p).1 = p.1) (hnm : ∀ p, p.1 = nm → g p = p)
    (row : List (String × Value)) :
    List.lookup nm (row.map g) = List.lookup nm row := by
  induction row with
  | nil => rfl
  | cons p ps ih =>
      simp only [List.map_cons, List.lookup, hg p]
      cases h : nm == p.1
      · simp only [ih]
      · have hp : g p = p := hnm p (beq_iff_eq.mp h).symm
        rw [hp]



/-- C1: for each of the seven tables, the table declared in the migration
environment (`alembic/env.py`) and the table declared in the bootstrap
script (`conport_schema.py`) are identical: same table name, same columns
in the same order, and for every column the same type, length bound,
nullability, primary-key flag and default/onupdate rule. -/
theorem conport_and_env_schemas_identical :
    ConportSchema.conport_metadata = AlembicEnv.target_metadata := by
  decide

/-- C2 counterexample: the `links` table is one of the seven tables of the
bootstrap metadata and declares no `updated_at` column at all, refuting the
claim that every one of the seven tables declares both timestamp columns. -/
theorem links_table_lacks_updated_at :
    ConportSchema.links ∈ ConportSchema.conport_metadata ∧
    ConportSchema.links.columns.all (fun c => !(c.name == "updated_at")) = true := by
  decide

/-- C2 (amended): every one of the seven tables declares a `created_at`
DateTime column defaulted to the current time at insert; every table except
`links` also declares an `updated_at` DateTime column defaulted to the
current time at insert and refreshed to the current time on update; the
`links` table declares no `updated_at` column. -/
theorem timestamp_columns_amended :
    ∀ t ∈ ConportSchema.conport_metadata,
      (∃ c ∈ t.columns, c.name = "created_at" ∧ c.type = ColType.DateTime ∧
         c.colDefault = DefaultRule.now) ∧
      (t.name ≠ "links" →
        ∃ c ∈ t.columns, c.name = "updated_at" ∧ c.type = ColType.DateTime ∧
          c.colDefault = DefaultRule.now ∧ c.onupdate = DefaultRule.now) ∧
      (t.name = "links" →
        t.columns.all (fun c => !(c.name == "updated_at")) = true) := by
  decide

/-- Witness for the amended C2, instantiated at the `decisions` and `links`
tables. -/
theorem timestamp_columns_amended_witness :
    (∃ c ∈ ConportSchema.decisions.columns, c.name = "created_at" ∧
       c.type = ColType.DateTime ∧ c.colDefault = DefaultRule.now) ∧
    (∃ c ∈ ConportSchema.decisions.columns, c.name = "updated_at" ∧
       c.type = ColType.DateTime ∧ c.colDefault = DefaultRule.now ∧
       c.onupdate = DefaultRule.now) ∧
    ConportSchema.links.columns.all (fun c => !(c.name == "updated_at")) = true :=
  ⟨(timestamp_columns_amended ConportSchema.decisions (by decide)).1,
   (timestamp_columns_amended ConportSchema.decisions (by decide)).2.1 (by decide),
   (timestamp_columns_amended ConportSchema.links (by decide)).2.2 (by decide)⟩

/-- C3 counterexample: the tables created by a bootstrap run against an
empty target do not carry the column sets enumerated by the data model of
the spec: the seventh table, `links`, lacks the `updated_at` column the
data model's shared conventions assign to every table. -/
theorem bootstrap_columns_differ_from_spec_data_model :
    ((ConportSchema.create_conport_tables []).1.map
        (fun t => (t.name, t.columns.map Column.name))) ≠ specDataModelColumns ∧
    ((ConportSchema.create_conport_tables []).1.map
        (fun t => (t.name, t.columns.map Column.name)))[6]? ≠ specDataModelColumns[6]? := by
  decide

/-- C3 (amended): a zero-argument bootstrap invocation against an empty
target creates, at the fixed default path `./conport.db`, exactly seven
tables named `product_context`, `active_context`, `decisions`, `progress`,
`system_patterns`, `custom_data`, `links`, each with the column set
enumerated in the data model except that `links` omits `updated_at`, and
prints a confirmation message on success. -/
theorem bootstrap_creates_seven_tables :
    ((ConportSchema.create_conport_tables []).1.map
        (fun t => (t.name, t.columns.map Column.name)))
      = [ ("product_context",
           ["id", "workspace_id", "content", "version", "created_at", "updated_at"])
        , ("active_context",
           ["id", "workspace_id", "content", "version", "created_at", "updated_at"])
        , ("decisions",
           ["id", "workspace_id", "summary", "rationale", "implementation_details",
            "tags", "created_at", "updated_at"])
        , ("progress",
           ["id", "workspace_id", "status", "description", "parent_id",
            "linked_item_type", "linked_item_id", "link_relationship_type",
            "created_at", "updated_at"])
        , ("system_patterns",
           ["id", "workspace_id", "name", "description", "tags", "created_at",
            "updated_at"])
        , ("custom_data",
           ["id", "workspace_id", "category", "key", "value", "created_at",
            "updated_at"])
        , ("links",
           ["id", "workspace_id", "source_item_type", "source_item_id",
            "target_item_type", "target_item_id", "relationship_type",
            "description", "created_at"]) ] ∧
    (ConportSchema.create_conport_tables []).2.1
      = "ConPort database created successfully at ./conport.db" ∧
    (ConportSchema.create_conport_tables []).2.2.url = "sqlite:///./conport.db" := by
  decide

/-- C4: running the schema creation a second time against the same target is
idempotent — the second run changes nothing, and rerunning against the
already-initialized default target still leaves exactly the seven tables. -/
theorem create_conport_tables_idempotent :
    (∀ db : List STable,
       (ConportSchema.create_conport_tables
          (ConportSchema.create_conport_tables db).1).1
         = (ConportSchema.create_conport_tables db).1) ∧
    ((ConportSchema.create_conport_tables
        (ConportSchema.create_conport_tables []).1).1.map STable.name
      = ["product_context", "active_context", "decisions", "progress",
         "system_patterns", "custom_data", "links"]) := by
  constructor
  · intro db
    exact createAll_createAll ConportSchema.conport_metadata db
  · decide

/-- C5: every one of the seven tables declares a `workspace_id` column that
is a length-500 string and non-nullable, and an integer primary-key column
`id` whose value, when the insert does not supply one, is generated by the
engine as the next rowid (auto-increment). -/
theorem workspace_and_pk_conventions :
    ∀ t ∈ ConportSchema.conport_metadata,
      (∃ c ∈ t.columns, c.name = "workspace_id" ∧ c.type = ColType.StringN 500 ∧
         c.nullable = false) ∧
      (∃ c ∈ t.columns, c.name = "id" ∧ c.type = ColType.Integer ∧
         c.primaryKey = true ∧
         ∀ (vals : List (String × Value)) (nextId : Int) (now : Nat),
           vals.lookup "id" = none → storedValue c vals nextId now = Value.intV nextId) := by
  intro t ht
  simp only [ConportSchema.conport_metadata, List.mem_cons,
    List.not_mem_nil, or_false] at ht
  rcases ht with rfl | rfl | rfl | rfl | rfl | rfl | rfl <;>
    exact ⟨⟨{ name := "workspace_id", type := ColType.StringN 500, nullable := false },
            by decide, rfl, rfl, rfl⟩,
           ⟨{ name := "id", type := ColType.Integer, primaryKey := true, nullable := false },
            by decide, rfl, rfl, rfl,
            fun vals nextId now h => by unfold storedValue; rw [h]; rfl⟩⟩

/-- Witness for C5, instantiated at the `custom_data` table. -/
theorem workspace_and_pk_conventions_witness :
    (∃ c ∈ ConportSchema.custom_data.columns, c.name = "workspace_id" ∧
       c.type = ColType.StringN 500 ∧ c.nullable = false) ∧
    (∃ c ∈ ConportSchema.custom_data.columns, c.name = "id" ∧
       c.type = ColType.Integer ∧ c.primaryKey = true ∧
       ∀ (vals : List (String × Value)) (nextId : Int) (now : Nat),
         vals.lookup "id" = none → storedValue c vals nextId now = Value.intV nextId) :=
  workspace_and_pk_conventions ConportSchema.custom_data (by decide)

/-- In every one of the seven tables, a nullable column the insert omits
stores the value its default rule produces (the seven tables give each
column name to exactly one column, so the lookup of an omitted nullable
column's name finds that column's stored value). -/
theorem omitted_nullable_stores_default :
    ∀ t ∈ ConportSchema.conport_metadata, ∀ c ∈ t.columns, c.nullable = true →
      ∀ (vals : List (String × Value)) (nextId : Int) (now : Nat)
        (row : List (String × Value)),
        List.lookup c.name vals = none →
        insertRow t vals nextId now = some row →
        List.lookup c.name row = some (applyDefault c nextId now) := by
  have hkey : ∀ t ∈ ConportSchema.conport_metadata, ∀ c ∈ t.columns,
      c.nullable = true →
      List.find? (fun x => c.name == x.name) t.columns = some c := by decide
  intro t ht c hc hnul vals nextId now row hlook hins
  unfold insertRow at hins
  split at hins
  · injection hins with hrow
    subst hrow
    rw [lookup_map_columns, hkey t ht c hc hnul]
    show some (storedValue c vals nextId now) = some (applyDefault c nextId now)
    unfold storedValue
    rw [hlook]
  · exact Option.noConfusion hins

/-- C6 counterexample: `link_relationship_type` is a nullable column of the
`progress` table, yet a `progress` insert that omits it succeeds with the
declared default string stored in it, not NULL, refuting the claim that for
every table an insert omitting a nullable column stores that column as
null. -/
theorem nullable_default_omission_not_null :
    List.find? (fun c => c.name == "link_relationship_type")
        ConportSchema.progress.columns
      = some { name := "link_relationship_type", type := ColType.StringN 100,
               colDefault := DefaultRule.strConst "relates_to_progress" } ∧
    (insertRow ConportSchema.progress
        [("workspace_id", Value.strV "w"), ("status", Value.strV "open"),
         ("description", Value.strV "d")] 1 0).map
        (fun row => List.lookup "link_relationship_type" row)
      = some (some (Value.strV "relates_to_progress")) ∧
    some (some (Value.strV "relates_to_progress")) ≠ some (some Value.null) := by
  decide

/-- C6 (amended): for every table, inserting a row that omits a column
declared non-nullable (none of which carries a default) fails with a
constraint violation; inserting a row that omits a nullable column with no
declared default succeeds with that column stored as NULL; an omitted
nullable column that does carry a default rule stores that rule's value
instead of NULL; in particular, the `decisions` insert with only
`workspace_id` and `summary` succeeds with `rationale` stored as NULL. -/
theorem non_nullable_omission_fails :
    (∀ t ∈ ConportSchema.conport_metadata, ∀ c ∈ t.columns,
       c.nullable = false → c.colDefault = DefaultRule.noRule → c.primaryKey = false →
       ∀ (vals : List (String × Value)) (nextId : Int) (now : Nat),
         vals.lookup c.name = none → insertRow t vals nextId now = none) ∧
    (∀ t ∈ ConportSchema.conport_metadata, ∀ c ∈ t.columns,
       c.nullable = true → c.colDefault = DefaultRule.noRule →
       ∀ (vals : List (String × Value)) (nextId : Int) (now : Nat)
         (row : List (String × Value)),
         List.lookup c.name vals = none →
         insertRow t vals nextId now = some row →
         List.lookup c.name row = some Value.null) ∧
    (∀ t ∈ ConportSchema.conport_metadata, ∀ c ∈ t.columns,
       c.nullable = true →
       ∀ (vals : List (String × Value)) (nextId : Int) (now : Nat)
         (row : List (String × Value)),
         List.lookup c.name vals = none →
         insertRow t vals nextId now = some row →
         List.lookup c.name row = some (applyDefault c nextId now)) ∧
    (∃ row, insertRow ConportSchema.decisions
        [("workspace_id", Value.strV "ws1"), ("summary", Value.strV "use X")] 1 0
        = some row ∧ List.lookup "rationale" row = some Value.null) := by
  have hpkf : ∀ t ∈ ConportSchema.conport_metadata, ∀ c ∈ t.columns,
      c.nullable = true → c.primaryKey = false := by decide
  refine ⟨?_, ?_, ?_, ?_⟩
  · intro t ht c hc hnull hdef hpk vals nextId now hlook
    unfold insertRow
    rw [if_neg]
    intro hall
    rw [List.all_eq_true] at hall
    have hthis := hall c hc
    rw [hnull, Bool.false_or] at hthis
    have hsv : storedValue c vals nextId now = Value.null := by
      unfold storedValue
      rw [hlook]
      unfold applyDefault
      rw [hpk, Bool.false_and, if_neg (by decide), hdef]
    rw [hsv] at hthis
    exact absurd hthis (by decide)
  · intro t ht c hc hnul hdef vals nextId now row hlook hins
    have hval : applyDefault c nextId now = Value.null := by
      unfold applyDefault
      rw [hpkf t ht c hc hnul, Bool.false_and, if_neg (by decide), hdef]
    rw [omitted_nullable_stores_default t ht c hc hnul vals nextId now row hlook hins,
        hval]
  · exact omitted_nullable_stores_default
  · exact ⟨[("id", Value.intV 1), ("workspace_id", Value.strV "ws1"),
            ("summary", Value.strV "use X"), ("rationale", Value.null),
            ("implementation_details", Value.null), ("tags", Value.null),
            ("created_at", Value.timeV 0), ("updated_at", Value.timeV 0)],
           by decide, by decide⟩

/-- Witness for the amended C6: an empty `decisions` insert (omitting the
non-nullable `summary`) fails; the `decisions` insert omitting the
no-default nullable `rationale` stores NULL in it; and the `progress`
insert omitting the defaulted nullable `link_relationship_type` stores its
default rule's value. -/
theorem non_nullable_omission_fails_witness :
    insertRow ConportSchema.decisions [] 1 0 = none ∧
    List.lookup "rationale"
      [("id", Value.intV 1), ("workspace_id", Value.strV "ws1"),
       ("summary", Value.strV "use X"), ("rationale", Value.null),
       ("implementation_details", Value.null), ("tags", Value.null),
       ("created_at", Value.timeV 0), ("updated_at", Value.timeV 0)]
      = some Value.null ∧
    List.lookup "link_relationship_type"
      [("id", Value.intV 1), ("workspace_id", Value.strV "w"),
       ("status", Value.strV "open"), ("description", Value.strV "d"),
       ("parent_id", Value.null), ("linked_item_type", Value.null),
       ("linked_item_id", Value.null),
       ("link_relationship_type", Value.strV "relates_to_progress"),
       ("created_at", Value.timeV 0), ("updated_at", Value.timeV 0)]
      = some (applyDefault
          { name := "link_relationship_type", type := ColType.StringN 100,
            colDefault := DefaultRule.strConst "relates_to_progress" } 1 0) :=
  ⟨non_nullable_omission_fails.1 ConportSchema.decisions (by decide)
     { name := "summary", type := ColType.Text, nullable := false }
     (by decide) rfl rfl rfl [] 1 0 rfl,
   non_nullable_omission_fails.2.1 ConportSchema.decisions (by decide)
     { name := "rationale", type := ColType.Text }
     (by decide) rfl rfl
     [("workspace_id", Value.strV "ws1"), ("summary", Value.strV "use X")] 1 0
     [("id", Value.intV 1), ("workspace_id", Value.strV "ws1"),
      ("summary", Value.strV "use X"), ("rationale", Value.null),
      ("implementation_details", Value.null), ("tags", Value.null),
      ("created_at", Value.timeV 0), ("updated_at", Value.timeV 0)]
     rfl (by decide),
   non_nullable_omission_fails.2.2.1 ConportSchema.progress (by decide)
     { name := "link_relationship_type", type := ColType.StringN 100,
       colDefault := DefaultRule.strConst "relates_to_progress" }
     (by decide) rfl
     [("workspace_id", Value.strV "w"), ("status", Value.strV "open"),
      ("description", Value.strV "d")] 1 0
     [("id", Value.intV 1), ("workspace_id", Value.strV "w"),
      ("status", Value.strV "open"), ("description", Value.strV "d"),
      ("parent_id", Value.null), ("linked_item_type", Value.null),
      ("linked_item_id", Value.null),
      ("link_relationship_type", Value.strV "relates_to_progress"),
      ("created_at", Value.timeV 0), ("updated_at", Value.timeV 0)]
     rfl (by decide)⟩

/-- C10: for every invocation, `create_conport_tables` returns the engine it
created for `sqlite:///./conport.db`, whatever the state of the target
database. -/
theorem create_conport_tables_returns_engine (db : List STable) :
    (ConportSchema.create_conport_tables db).2.2 = { url := "sqlite:///./conport.db" } := by
  rfl

/-- In a table whose `version` column is the integer column defaulted to the
constant 1, an insert that does not supply `version` stores 1 in it. -/
theorem insert_version_default (t : STable)
    (hfind : List.find? (fun c => ("version" : String) == c.name) t.columns
      = some { name := "version", type := ColType.Integer,
               colDefault := DefaultRule.intConst 1 }) :
    ∀ (vals : List (String × Value)) (nextId : Int) (now : Nat)
      (row : List (String × Value)),
      List.lookup "version" vals = none →
      insertRow t vals nextId now = some row →
      List.lookup "version" row = some (Value.intV 1) := by
  intro vals nextId now row hlook hins
  unfold insertRow at hins
  split at hins
  · injection hins with hrow
    subst hrow
    rw [lookup_map_columns, hfind]
    simp [storedValue, applyDefault, hlook]
  · exact Option.noConfusion hins

/-- In a table whose `version` column carries no `onupdate` rule, an update
that does not set `version` leaves its stored value unchanged. -/
theorem update_version_unchanged (t : STable)
    (hfind : List.find? (fun c => c.name == "version") t.columns
      = some { name := "version", type := ColType.Integer,
               colDefault := DefaultRule.intConst 1 }) :
    ∀ (row sets : List (String × Value)) (now : Nat),
      List.lookup "version" sets = none →
      List.lookup "version" (updateRow t row sets now) = List.lookup "version" row := by
  intro row sets now hset
  unfold updateRow
  apply lookup_map_keys
  · intro p
    cases hl : List.lookup p.1 sets with
    | some v => rfl
    | none =>
      cases hf : List.find? (fun c => c.name == p.1) t.columns with
      | some c =>
        show (if c.onupdate == DefaultRule.now then (p.1, Value.timeV now) else p).1 = p.1
        split
        · rfl
        · rfl
      | none => rfl
  · intro p hp
    dsimp only
    rw [hp, hset, hfind]
    rfl

/-- C7: for `product_context` and `active_context`, an insert that does not
supply `version` stores `version = 1`, and an update that does not set
`version` leaves it at its prior value — the schema never auto-increments
it. -/
theorem version_default_one_not_autoincremented :
    (∀ (vals : List (String × Value)) (nextId : Int) (now : Nat)
       (row : List (String × Value)),
       List.lookup "version" vals = none →
       insertRow ConportSchema.product_context vals nextId now = some row →
       List.lookup "version" row = some (Value.intV 1)) ∧
    (∀ (vals : List (String × Value)) (nextId : Int) (now : Nat)
       (row : List (String × Value)),
       List.lookup "version" vals = none →
       insertRow ConportSchema.active_context vals nextId now = some row →
       List.lookup "version" row = some (Value.intV 1)) ∧
    (∀ (row sets : List (String × Value)) (now : Nat),
       List.lookup "version" sets = none →
       List.lookup "version" (updateRow ConportSchema.product_context row sets now)
         = List.lookup "version" row) ∧
    (∀ (row sets : List (String × Value)) (now : Nat),
       List.lookup "version" sets = none →
       List.lookup "version" (updateRow ConportSchema.active_context row sets now)
         = List.lookup "version" row) :=
  ⟨insert_version_default ConportSchema.product_context (by decide),
   insert_version_default ConportSchema.active_context (by decide),
   update_version_unchanged ConportSchema.product_context (by decide),
   update_version_unchanged ConportSchema.active_context (by decide)⟩

/-- Witness for C7: a `product_context` insert supplying only `workspace_id`
stores `version = 1`, and an `active_context` update setting nothing leaves
`version` unchanged. -/
theorem version_default_one_witness :
    List.lookup "version"
      [("id", Value.intV 1), ("workspace_id", Value.strV "w"), ("content", Value.null),
       ("version", Value.intV 1), ("created_at", Value.timeV 0),
       ("updated_at", Value.timeV 0)] = some (Value.intV 1) ∧
    List.lookup "version"
      (updateRow ConportSchema.active_context [("version", Value.intV 5)] [] 3)
      = List.lookup "version" [("version", Value.intV 5)] :=
  ⟨version_default_one_not_autoincremented.1
     [("workspace_id", Value.strV "w")] 1 0 _ rfl (by decide),
   version_default_one_not_autoincremented.2.2.2
     [("version", Value.intV 5)] [] 3 rfl⟩

/-- C8 counterexample: the `source_item_type` column of `links` — a "type"
field — is declared `String(100)`, not 500, and the `description` column of
`progress` is declared as unbounded `Text` with no maximum length at all,
refuting the claim's length assignment for type and description fields. -/
theorem string_length_claim_refuted :
    (List.find? (fun c => c.name == "source_item_type")
        ConportSchema.links.columns).map Column.type = some (ColType.StringN 100) ∧
    (List.find? (fun c => c.name == "description")
        ConportSchema.progress.columns).map Column.type = some ColType.Text := by
  decide

/-- C8 (amended): every `String`-typed column has a declared maximum
length — 500 for identifier fields (`workspace_id`, the `*_item_id` fields,
`name`, `key`) and 100 or 200 for type, status, category and relationship
fields; description, summary, rationale and implementation-details fields
are declared as unbounded `Text` with no maximum length; every
length-bounded column is one of those enumerated; and the storage layer
(modelled from the spec by `storeBoundedString`) rejects a value exceeding
a declared bound and never stores a truncated value. -/
theorem string_length_bounds_amended :
    (∀ t ∈ ConportSchema.conport_metadata, ∀ c ∈ t.columns,
      (c.name ∈ ["workspace_id", "linked_item_id", "name", "key",
                 "source_item_id", "target_item_id"] →
        c.type = ColType.StringN 500) ∧
      (c.name ∈ ["status", "linked_item_type", "link_relationship_type",
                 "source_item_type", "target_item_type"] →
        c.type = ColType.StringN 100) ∧
      (c.name ∈ ["category", "relationship_type"] → c.type = ColType.StringN 200) ∧
      (c.name ∈ ["summary", "rationale", "implementation_details", "description"] →
        c.type = ColType.Text) ∧
      (c.type = ColType.Integer ∨ c.type = ColType.Text ∨
       c.type = ColType.DateTime ∨ c.type = ColType.JSON ∨
       c.name ∈ ["workspace_id", "linked_item_id", "name", "key",
                 "source_item_id", "target_item_id", "status", "linked_item_type",
                 "link_relationship_type", "source_item_type", "target_item_type",
                 "category", "relationship_type"])) ∧
    (∀ (n : Nat) (s : String), n < s.length → storeBoundedString n s = none) ∧
    (∀ (n : Nat) (s r : String), storeBoundedString n s = some r → r = s) := by
  refine ⟨by decide, ?_, ?_⟩
  · intro n s h
    unfold storeBoundedString
    rw [if_neg (by omega)]
  · intro n s r h
    unfold storeBoundedString at h
    split at h
    · exact (Option.some.inj h).symm
    · exact Option.noConfusion h

/-- Witness for the amended C8: one column of each length class, rejection
of an over-long value, and non-truncation of a stored value. -/
theorem string_length_bounds_amended_witness :
    (({ name := "workspace_id", type := ColType.StringN 500,
        nullable := false } : Column).type = ColType.StringN 500) ∧
    (({ name := "source_item_type", type := ColType.StringN 100,
        nullable := false } : Column).type = ColType.StringN 100) ∧
    (({ name := "relationship_type", type := ColType.StringN 200,
        nullable := false } : Column).type = ColType.StringN 200) ∧
    (({ name := "rationale", type := ColType.Text } : Column).type = ColType.Text) ∧
    storeBoundedString 1 "ab" = none ∧
    ("ab" : String) = "ab" :=
  ⟨(string_length_bounds_amended.1 ConportSchema.links (by decide) _ (by decide)).1
     (by decide),
   (string_length_bounds_amended.1 ConportSchema.links (by decide) _ (by decide)).2.1
     (by decide),
   (string_length_bounds_amended.1 ConportSchema.links (by decide) _ (by decide)).2.2.1
     (by decide),
   (string_length_bounds_amended.1 ConportSchema.decisions (by decide) _ (by decide)).2.2.2.1
     (by decide),
   string_length_bounds_amended.2.1 1 "ab" (by decide),
   string_length_bounds_amended.2.2 5 "ab" "ab" (by decide)⟩

/-- C9: the schema declares no foreign-key and no uniqueness constraint
beyond each table's primary key `id`; `progress.parent_id` is a plain
nullable integer column, so an insert carrying a `parent_id` that matches
no row is accepted; and `custom_data` carries no unique constraint on the
(workspace_id, category, key) triple, so two inserts with the same triple
are both accepted. -/
theorem no_foreign_keys_or_extra_unique_constraints :
    (∀ t ∈ ConportSchema.conport_metadata, t.extraConstraints = [] ∧
       ∀ c ∈ t.columns, c.foreignKey = none ∧ c.unique = false ∧
         (c.primaryKey = true → c.name = "id")) ∧
    (∃ c ∈ ConportSchema.progress.columns, c.name = "parent_id" ∧
       c.type = ColType.Integer ∧ c.nullable = true ∧ c.foreignKey = none) ∧
    insertRow ConportSchema.progress
      [("workspace_id", Value.strV "w"), ("status", Value.strV "open"),
       ("description", Value.strV "d"), ("parent_id", Value.intV 999)] 1 0 ≠ none ∧
    insertRow ConportSchema.custom_data
      [("workspace_id", Value.strV "w"), ("category", Value.strV "cat"),
       ("key", Value.strV "k"), ("value", Value.jsonV "v")] 1 0 ≠ none ∧
    insertRow ConportSchema.custom_data
      [("workspace_id", Value.strV "w"), ("category", Value.strV "cat"),
       ("key", Value.strV "k"), ("value", Value.jsonV "v")] 2 1 ≠ none := by
  decide

/-- Witness for C9 at the `progress` table and its primary-key column. -/
theorem no_foreign_keys_witness :
    ConportSchema.progress.extraConstraints = [] ∧
    (({ name := "id", type := ColType.Integer, primaryKey := true,
        nullable := false } : Column).foreignKey = none) ∧
    (({ name := "id", type := ColType.Integer, primaryKey := true,
        nullable := false } : Column).name = "id") :=
  ⟨(no_foreign_keys_or_extra_unique_constraints.1 ConportSchema.progress (by decide)).1,
   ((no_foreign_keys_or_extra_unique_constraints.1 ConportSchema.progress
       (by decide)).2 _ (by decide)).1,
   ((no_foreign_keys_or_extra_unique_constraints.1 ConportSchema.progress
       (by decide)).2 _ (by decide)).2.2 (by decide)⟩
